import Mathlib

/-!
# Azure Smart Snooze Alarm Clock: control core of `main.c`

A shallow embedding of the button-driven state machine, the alarm scheduling
(`setCurrentAlarm`, `checkAlarm`), the lead-time learning (`endSoundAlarm`), the
buzzer tick (`buzzerTimerEventHandler`) and the persisted hour/active byte
(`loadSettings`, `saveSettings`).

Conventions of the embedding

* The C globals (`currentState`, `alarmTime`, `timezone`, the four stored button
  levels, `soundAlarmStarted`, `snoozeTime`, `terminationRequired`) are the fields
  of `Device`; every handler is a function `Device → Device`.
* `uint8_t` / `uint16_t` values are `Nat`, and every store into such a field
  truncates explicitly (`toUInt8`, `toUInt16`).  `time_t` is `Int`.
* What a handler reads from the outside world (the sampled GPIO level, the result
  of `clock_gettime`, whether `Storage_OpenMutableFile` / `setenv` succeed) is
  passed in as an argument; a failed call is `none` / `false`.
* `struct timespec` is represented by its `tv_sec` field, the only one the control
  logic reads.
* Local time is a fixed-offset calendar: `Device.tzOffset` is the number of seconds
  east of UTC that `localtime` / `mktime` apply after the last `tzset()`.
* The build modelled is the one without `DEBUG_ALARM_TIME`.
-/

namespace AlarmClock

/-! ## Constants (`#define`s) -/

/-- Unix time of 1/1/2010, `#define INVALID_DATE_TIME 1262304000`. -/
def INVALID_DATE_TIME : Int := 1262304000

/-- Number of seconds in a day, `#define SECONDS_IN_DAY 86400`. -/
def SECONDS_IN_DAY : Int := 86400

/-- Length of a snooze in seconds, `#define SNOOZE_LENGTH 20`. -/
def SNOOZE_LENGTH : Int := 20

/-! ## Machine integers -/

/-- Conversion of a C `int` value to `uint8_t` (reduction modulo 2^8). -/
def toUInt8 (x : Int) : Nat := (x % 256).toNat

/-- Conversion of a C integer value to `uint16_t` (reduction modulo 2^16). -/
def toUInt16 (x : Int) : Nat := (x % 65536).toNat

/-! ## Data model -/

/-- The C enumeration `enum buttonName`. -/
inductive buttonName where
  | ButtonA
  | ButtonB
  | ButtonC
  | ButtonSet
deriving DecidableEq, Repr

/-- The C enumeration `enum runningState`. -/
inductive runningState where
  | Normal
  | DisplayAlarm
  | SetSettings
  | SetTimeZone
  | SetAlarmHour
  | SetAlarmMinute
  | SoundAlarm
  | Snooze
deriving DecidableEq, Repr

/-- The two levels of `GPIO_Value_Type`. Buttons are active low: a press is a
change to `GPIO_Value_Low`, a release a change to `GPIO_Value_High`. -/
inductive GPIO_Value_Type where
  | GPIO_Value_Low
  | GPIO_Value_High
deriving DecidableEq, Repr

/-- The C structure `struct AlarmTime`. -/
structure AlarmTime where
  /-- Field `uint8_t hour`. -/
  hour : Nat
  /-- Field `uint8_t minute`. -/
  minute : Nat
  /-- Field `uint16_t offsetSeconds`, the learned lead time. -/
  offsetSeconds : Nat
  /-- Field `time_t currentAlarmTime`, the next trigger instant. -/
  currentAlarmTime : Int
  /-- Field `bool active`. -/
  active : Bool
deriving DecidableEq, Repr

/-- The buffer `char timezone[STORAGE_TIME_ZONE_SIZE + 1]`: its three characters;
the fourth byte is the terminating NUL, which no handler overwrites with anything
but NUL. A character may itself be NUL (the buffer is zero-initialised). -/
structure TimeZone where
  /-- Byte `timezone[0]`: the sign character. -/
  c0 : Char
  /-- Byte `timezone[1]`. -/
  c1 : Char
  /-- Byte `timezone[2]`. -/
  c2 : Char
deriving DecidableEq, Repr

/-- The persisted settings record as `saveSettings` writes it and `loadSettings`
reads it. `offsetSeconds` is the value of the 16-bit field; the two further bytes
that the four-byte transfer moves are not represented. -/
structure Storage where
  /-- Bytes 0..2: the time zone string. -/
  timezone : TimeZone
  /-- Byte 3: hour in the low seven bits, active flag in bit 7. -/
  activeHour : Nat
  /-- Byte 4: minute. -/
  minute : Nat
  /-- Bytes 5..: the lead time. -/
  offsetSeconds : Nat
deriving DecidableEq, Repr

/-- The global state of the program. -/
structure Device where
  /-- Global `currentState`. -/
  currentState : runningState
  /-- Global `alarmTime`. -/
  alarmTime : AlarmTime
  /-- Global `timezone`. -/
  timezone : TimeZone
  /-- Global `buttonAState`. -/
  buttonAState : GPIO_Value_Type
  /-- Global `buttonBState`. -/
  buttonBState : GPIO_Value_Type
  /-- Global `buttonCState`. -/
  buttonCState : GPIO_Value_Type
  /-- Global `buttonSetState`. -/
  buttonSetState : GPIO_Value_Type
  /-- Global `soundAlarmStarted` (its `tv_sec`). -/
  soundAlarmStarted : Int
  /-- Global `snoozeTime` (its `tv_sec`). -/
  snoozeTime : Int
  /-- Global `terminationRequired`. -/
  terminationRequired : Bool
  /-- Output level of the buzzer pin `buzzerFd`. -/
  buzzer : GPIO_Value_Type
  /-- Offset east of UTC, in seconds, in effect for `localtime` and `mktime`. -/
  tzOffset : Int
  /-- Content of the mutable storage file. -/
  storage : Storage
deriving DecidableEq, Repr

/-- What one invocation of a button handler obtains from outside the program. -/
structure Env where
  /-- Result of `GPIO_GetValue` on the button polled; `none` when the call fails. -/
  gpio : Option GPIO_Value_Type
  /-- Result (`tv_sec`) of the `clock_gettime` in `processAlarmButtonPress` and
  `endSoundAlarm`; `none` when the call fails. -/
  clock : Option Int
  /-- Result (`tv_sec`) of the `clock_gettime` whose value `setCurrentAlarm` uses;
  `none` when that call, or one made while waiting for the time sync, fails. -/
  alarmClock : Option Int
  /-- Whether `Storage_OpenMutableFile` succeeds. -/
  storageOk : Bool
  /-- Whether `setenv("TZ", ...)` succeeds. -/
  setenvOk : Bool
  /-- Offset east of UTC, in seconds, that `tzset()` derives from the new `TZ`. -/
  tzOffset : Int

/-! ## Calendar -/

/-- The C structure `struct tm`, with the calendar date (`tm_year`, `tm_mon`,
`tm_mday`) held as the number of days since 1 January 1970. -/
structure tm where
  /-- Calendar date, in days since the epoch. -/
  tm_date : Int
  /-- Field `tm_hour`. -/
  tm_hour : Int
  /-- Field `tm_min`. -/
  tm_min : Int
  /-- Field `tm_sec`. -/
  tm_sec : Int
deriving DecidableEq, Repr

/-- The libc function `localtime` for a zone `tzOffset` seconds east of UTC. -/
def localtime (tzOffset : Int) (t : Int) : tm :=
  let l := t + tzOffset
  { tm_date := l / 86400
    tm_hour := l % 86400 / 3600
    tm_min := l % 3600 / 60
    tm_sec := l % 60 }

/-- The libc function `mktime` for a zone `tzOffset` seconds east of UTC; fields
outside their range are carried over, as `mktime` normalises them. -/
def mktime (tzOffset : Int) (l : tm) : Int :=
  l.tm_date * 86400 + l.tm_hour * 3600 + l.tm_min * 60 + l.tm_sec - tzOffset

/-! ## Settings storage -/

/-- The byte `activeHour` that `saveSettings` computes:
`alarmTime.hour | (alarmTime.active << 7)` stored in a `uint8_t`. -/
def activeHourByte (hour : Nat) (active : Bool) : Nat :=
  toUInt8 ((hour ||| ((if active then 1 else 0) <<< 7) : Nat) : Int)

/-- The active flag `loadSettings` extracts: `alarmTime.hour & 0b10000000`
converted to `bool`. -/
def loadActive (byte : Nat) : Bool := (byte &&& 0b10000000) != 0

/-- The hour `loadSettings` extracts: `alarmTime.hour & 0b01111111`. -/
def loadHour (byte : Nat) : Nat := byte &&& 0b01111111

/-- The C function `saveSettings`; the writes succeed once the file is open. -/
def saveSettings (storageOk : Bool) (d : Device) : Device :=
  if storageOk then
    { d with
      storage :=
        { timezone := d.timezone
          activeHour := activeHourByte d.alarmTime.hour d.alarmTime.active
          minute := d.alarmTime.minute
          offsetSeconds := d.alarmTime.offsetSeconds } }
  else d

/-- The C function `loadSettings`; the reads succeed once the file is open. A time
zone string whose length is not three is replaced by `+00`. -/
def loadSettings (storageOk : Bool) (d : Device) : Device :=
  if storageOk then
    let tz := d.storage.timezone
    let byte := d.storage.activeHour
    { d with
      timezone :=
        if tz.c0 = '\x00' ∨ tz.c1 = '\x00' ∨ tz.c2 = '\x00' then
          { c0 := '+', c1 := '0', c2 := '0' }
        else tz
      alarmTime :=
        { d.alarmTime with
          hour := loadHour byte
          minute := d.storage.minute
          offsetSeconds := d.storage.offsetSeconds
          active := loadActive byte } }
  else d

/-! ## Alarm scheduling -/

/-- The C function `setTimeZone`: `none` when `setenv` fails. -/
def setTimeZone (env : Env) (d : Device) : Option Device :=
  if env.setenvOk then some { d with tzOffset := env.tzOffset } else none

/-- The C function `setCurrentAlarm`. `clk` is the clock value the function ends
up using; the preceding wait for the time sync only delays it. -/
def setCurrentAlarm (clk : Option Int) (d : Device) : Device :=
  match clk with
  | none => { d with terminationRequired := true }
  | some currentTime =>
    let local0 := localtime d.tzOffset currentTime
    let local1 : tm :=
      { local0 with
        tm_hour := (d.alarmTime.hour : Int)
        tm_min := (d.alarmTime.minute : Int)
        tm_sec := 0 }
    let alarm := mktime d.tzOffset local1 - (d.alarmTime.offsetSeconds : Int)
    let alarm := if alarm < currentTime then alarm + SECONDS_IN_DAY else alarm
    { d with alarmTime := { d.alarmTime with currentAlarmTime := alarm } }

/-- The C function `checkAlarm`. -/
def checkAlarm (clk : Option Int) (d : Device) : Device :=
  match clk with
  | none => { d with terminationRequired := true }
  | some currentTime =>
    if d.alarmTime.currentAlarmTime < currentTime then
      { d with
        soundAlarmStarted := currentTime
        currentState := if d.alarmTime.active then runningState.SoundAlarm else d.currentState
        alarmTime :=
          { d.alarmTime with
            currentAlarmTime := d.alarmTime.currentAlarmTime + SECONDS_IN_DAY } }
    else d

/-! ## Lead-time learning -/

/-- The local `uint16_t elapsedTime` of `endSoundAlarm`:
`currentTime.tv_sec - soundAlarmStarted.tv_sec` stored in 16 bits. -/
def elapsedTime (currentTime soundAlarmStarted : Int) : Nat :=
  toUInt16 (currentTime - soundAlarmStarted)

/-- The value `endSoundAlarm` assigns to `alarmTime.offsetSeconds`:
`(elapsedTime + alarmTime.offsetSeconds) / 2` stored in 16 bits. -/
def newOffsetSeconds (elapsed offsetSeconds : Nat) : Nat :=
  toUInt16 (((elapsed : Int) + (offsetSeconds : Int)) / 2)

/-- The C function `endSoundAlarm`. -/
def endSoundAlarm (env : Env) (d : Device) : Device :=
  let d1 := { d with currentState := runningState.Normal, buzzer := GPIO_Value_Type.GPIO_Value_Low }
  match env.clock with
  | none => { d1 with terminationRequired := true }
  | some currentTime =>
    let elapsed := elapsedTime currentTime d1.soundAlarmStarted
    let d2 :=
      { d1 with
        alarmTime :=
          { d1.alarmTime with
            offsetSeconds := newOffsetSeconds elapsed d1.alarmTime.offsetSeconds } }
    setCurrentAlarm env.alarmClock d2

/-- The C function `processAlarmButtonPress`. -/
def processAlarmButtonPress (button : buttonName) (env : Env) (d : Device) : Device :=
  if button = buttonName.ButtonA then
    endSoundAlarm env d
  else if button = buttonName.ButtonSet then
    let d1 := { d with currentState := runningState.Snooze }
    match env.clock with
    | none => { d1 with terminationRequired := true }
    | some t => { d1 with snoozeTime := t + SNOOZE_LENGTH }
  else d

/-! ## Time zone editing -/

/-- The libc predicate `isspace` in the C locale. -/
def isspace (c : Char) : Bool :=
  c = ' ' || c = '\t' || c = '\n' || c = '\x0b' || c = '\x0c' || c = '\r'

/-- Digit loop of `atoi`: accumulates decimal digits until the first other
character (the terminating NUL included). -/
def atoiDigits : Int → List Char → Int
  | acc, [] => acc
  | acc, c :: cs =>
    if c.isDigit then atoiDigits (acc * 10 + ((c.toNat : Int) - 48)) cs else acc

/-- The libc function `atoi`: leading white space, an optional sign, digits. -/
def atoi : List Char → Int
  | [] => 0
  | c :: cs =>
    if isspace c then atoi cs
    else if c = '-' then - atoiDigits 0 cs
    else if c = '+' then atoiDigits 0 cs
    else atoiDigits 0 (c :: cs)

/-- The text `sprintf(..., "%02d", n)` produces. -/
def sprintf02d (n : Int) : List Char :=
  if n < 0 then
    let ds := Nat.toDigits 10 n.natAbs
    '-' :: (List.replicate (1 - ds.length) '0' ++ ds)
  else
    let ds := Nat.toDigits 10 n.toNat
    List.replicate (2 - ds.length) '0' ++ ds

/-- The string `hourString = &timezone[1]` as `atoi` sees it. -/
def hourString (tz : TimeZone) : List Char := [tz.c1, tz.c2]

/-- Effect of `sprintf(hourString, "%02d", hours)` on the buffer. Every value the
handlers format lies in `-9..99` and prints as exactly two characters. -/
def writeHourString (tz : TimeZone) (hours : Int) : TimeZone :=
  match sprintf02d hours with
  | [a, b] => { tz with c1 := a, c2 := b }
  | _ => tz

/-! ## Button handlers -/

/-- The C function `processButtonA`. -/
def processButtonA (env : Env) (d : Device) : Device :=
  match env.gpio with
  | none => { d with terminationRequired := true }
  | some newButtonState =>
    if newButtonState ≠ d.buttonAState then
      let d1 : Device :=
        match d.currentState with
        | runningState.Normal =>
          if newButtonState = GPIO_Value_Type.GPIO_Value_Low then
            { d with currentState := runningState.DisplayAlarm }
          else d
        | runningState.DisplayAlarm =>
          if newButtonState = GPIO_Value_Type.GPIO_Value_High then
            { saveSettings env.storageOk d with currentState := runningState.Normal }
          else d
        | runningState.SetSettings =>
          if newButtonState = GPIO_Value_Type.GPIO_Value_Low then
            { d with currentState := runningState.SetAlarmHour }
          else d
        | runningState.SetAlarmHour =>
          if newButtonState = GPIO_Value_Type.GPIO_Value_Low then
            let hour := toUInt8 ((d.alarmTime.hour : Int) - 1)
            let hour := if hour > 23 then 23 else hour
            { d with alarmTime := { d.alarmTime with hour := hour } }
          else d
        | runningState.SetAlarmMinute =>
          if newButtonState = GPIO_Value_Type.GPIO_Value_Low then
            let minute := toUInt8 ((d.alarmTime.minute : Int) - 1)
            let hour := if d.alarmTime.hour > 59 then 59 else d.alarmTime.hour
            { d with alarmTime := { d.alarmTime with minute := minute, hour := hour } }
          else d
        | runningState.SetTimeZone =>
          if newButtonState = GPIO_Value_Type.GPIO_Value_Low then
            { d with
              timezone := { d.timezone with c0 := if d.timezone.c0 = '+' then '-' else '+' } }
          else d
        | runningState.SoundAlarm => processAlarmButtonPress buttonName.ButtonA env d
        | runningState.Snooze => processAlarmButtonPress buttonName.ButtonA env d
      { d1 with buttonAState := newButtonState }
    else d

/-- The C function `processButtonB`. -/
def processButtonB (env : Env) (d : Device) : Device :=
  match env.gpio with
  | none => { d with terminationRequired := true }
  | some newButtonState =>
    if newButtonState ≠ d.buttonBState then
      let d1 : Device :=
        match d.currentState with
        | runningState.SetAlarmHour =>
          if newButtonState = GPIO_Value_Type.GPIO_Value_Low then
            { d with
              alarmTime :=
                { d.alarmTime with hour := toUInt8 ((((d.alarmTime.hour + 1) % 24 : Nat)) : Int) } }
          else d
        | runningState.SetAlarmMinute =>
          if newButtonState = GPIO_Value_Type.GPIO_Value_Low then
            { d with
              alarmTime :=
                { d.alarmTime with
                  minute := toUInt8 ((((d.alarmTime.minute + 1) % 60 : Nat)) : Int) } }
          else d
        | runningState.SetTimeZone =>
          if newButtonState = GPIO_Value_Type.GPIO_Value_Low then
            let hours := atoi (hourString d.timezone)
            let hours := hours - 1
            let hours := if hours < 0 then 23 else hours
            { d with timezone := writeHourString d.timezone hours }
          else d
        | _ => d
      { d1 with buttonBState := newButtonState }
    else d

/-- The C function `processButtonC`. The C operator `%` truncates towards zero
(`Int.tmod`). -/
def processButtonC (env : Env) (d : Device) : Device :=
  match env.gpio with
  | none => { d with terminationRequired := true }
  | some newButtonState =>
    if newButtonState ≠ d.buttonCState then
      let d1 : Device :=
        match d.currentState with
        | runningState.SetSettings =>
          if newButtonState = GPIO_Value_Type.GPIO_Value_Low then
            { d with currentState := runningState.SetTimeZone }
          else d
        | runningState.DisplayAlarm =>
          if newButtonState = GPIO_Value_Type.GPIO_Value_Low then
            { d with alarmTime := { d.alarmTime with active := !d.alarmTime.active } }
          else d
        | runningState.SetTimeZone =>
          if newButtonState = GPIO_Value_Type.GPIO_Value_Low then
            let hours := atoi (hourString d.timezone)
            let hours := Int.tmod (hours + 1) 24
            { d with timezone := writeHourString d.timezone hours }
          else d
        | _ => d
      { d1 with buttonCState := newButtonState }
    else d

/-- Body of the `if (newButtonState != buttonSetState)` block of
`processButtonSet`; `Except.error` is the early `return` taken when `setTimeZone`
fails, which skips the update of `buttonSetState`. -/
def processButtonSetEdge (newButtonState : GPIO_Value_Type) (env : Env) (d : Device) :
    Except Device Device :=
  match d.currentState with
  | runningState.Normal =>
    if newButtonState = GPIO_Value_Type.GPIO_Value_Low then
      Except.ok { d with currentState := runningState.SetSettings }
    else Except.ok d
  | runningState.SetAlarmHour =>
    if newButtonState = GPIO_Value_Type.GPIO_Value_High then
      Except.ok { d with currentState := runningState.SetAlarmMinute }
    else Except.ok d
  | runningState.SetAlarmMinute =>
    if newButtonState = GPIO_Value_Type.GPIO_Value_High then
      let d1 := { d with alarmTime := { d.alarmTime with offsetSeconds := 0 } }
      let d2 := saveSettings env.storageOk d1
      let d3 := setCurrentAlarm env.alarmClock d2
      Except.ok { d3 with currentState := runningState.Normal }
    else Except.ok d
  | runningState.SetTimeZone =>
    if newButtonState = GPIO_Value_Type.GPIO_Value_High then
      match setTimeZone env d with
      | none => Except.error { d with terminationRequired := true }
      | some d1 =>
        Except.ok { saveSettings env.storageOk d1 with currentState := runningState.Normal }
    else Except.ok d
  | runningState.SoundAlarm => Except.ok (processAlarmButtonPress buttonName.ButtonSet env d)
  | _ => Except.ok d

/-- The C function `processButtonSet`. -/
def processButtonSet (env : Env) (d : Device) : Device :=
  match env.gpio with
  | none => { d with terminationRequired := true }
  | some newButtonState =>
    if newButtonState ≠ d.buttonSetState then
      match processButtonSetEdge newButtonState env d with
      | Except.error d1 => d1
      | Except.ok d1 => { d1 with buttonSetState := newButtonState }
    else d

/-- The handler of button `b`, as `buttonTimerEventHandler` calls them. -/
def processButton (b : buttonName) (env : Env) (d : Device) : Device :=
  match b with
  | buttonName.ButtonA => processButtonA env d
  | buttonName.ButtonB => processButtonB env d
  | buttonName.ButtonC => processButtonC env d
  | buttonName.ButtonSet => processButtonSet env d

/-- The stored previous level of button `b`. -/
def buttonState (b : buttonName) (d : Device) : GPIO_Value_Type :=
  match b with
  | buttonName.ButtonA => d.buttonAState
  | buttonName.ButtonB => d.buttonBState
  | buttonName.ButtonC => d.buttonCState
  | buttonName.ButtonSet => d.buttonSetState

/-- The C function `buttonTimerEventHandler`: the four handlers in order, each
with its own reads. -/
def buttonTimerEventHandler (consumeOk : Bool) (envA envB envC envSet : Env)
    (d : Device) : Device :=
  if consumeOk then
    processButtonSet envSet (processButtonC envC (processButtonB envB (processButtonA envA d)))
  else { d with terminationRequired := true }

/-! ## Buzzer -/

/-- The C function `buzzerTimerEventHandler`. `consumeOk` and `getOk` say whether
`ConsumeTimerFdEvent` and `GPIO_GetValue` succeed; the level read back is the
level last written to the pin; `clk` is the result of `clock_gettime`. -/
def buzzerTimerEventHandler (consumeOk getOk : Bool) (clk : Option Int) (d : Device) :
    Device :=
  if !consumeOk then { d with terminationRequired := true }
  else if !getOk then { d with terminationRequired := true }
  else
    let buzzerState := d.buzzer
    if d.currentState = runningState.SoundAlarm then
      if buzzerState = GPIO_Value_Type.GPIO_Value_High then
        { d with buzzer := GPIO_Value_Type.GPIO_Value_Low }
      else { d with buzzer := GPIO_Value_Type.GPIO_Value_High }
    else if d.currentState = runningState.Snooze then
      let d1 :=
        if buzzerState = GPIO_Value_Type.GPIO_Value_High then
          { d with buzzer := GPIO_Value_Type.GPIO_Value_Low }
        else d
      match clk with
      | none => { d1 with terminationRequired := true }
      | some currentTime =>
        if currentTime > d1.snoozeTime then
          { d1 with currentState := runningState.SoundAlarm }
        else d1
    else if buzzerState = GPIO_Value_Type.GPIO_Value_High then
      { d with buzzer := GPIO_Value_Type.GPIO_Value_Low }
    else d

/-! ## Clock readiness and display -/

/-- Number of clock polls of the retry loops, `#define NTP_SYNC_RETRIES 10`. -/
def NTP_SYNC_RETRIES : Nat := 10

/-- The readiness test of the retry loops in `initializeClock` and
`setCurrentAlarm`: `currentTime.tv_sec > INVALID_DATE_TIME` ends the wait. -/
def isTimeValid (now : Int) : Bool := decide (now > INVALID_DATE_TIME)

/-- How a retry loop ends. -/
inductive SyncOutcome where
  /-- A `clock_gettime` failed: termination is requested and the function returns. -/
  | clockError
  /-- The readiness test succeeded on poll number `polls` (counted from 0), after as
  many sleeps. -/
  | synced (polls : Nat)
  /-- All retries were used without the readiness test succeeding. -/
  | exhausted
deriving DecidableEq, Repr

/-- The retry loop `while (syncRetries-- > 0)` of `initializeClock` and
`setCurrentAlarm`; `reads i` is the result of the clock read of poll `i`, after
`i` sleeps of two seconds. -/
def waitForSync (reads : Nat → Option Int) : Nat → Nat → SyncOutcome
  | 0, _ => SyncOutcome.exhausted
  | syncRetries + 1, i =>
    match reads i with
    | none => SyncOutcome.clockError
    | some currentTime =>
      if isTimeValid currentTime then SyncOutcome.synced i
      else waitForSync reads syncRetries (i + 1)

/-- What `displayTime` draws into the cleared display buffer. -/
inductive Screen where
  /-- The text `Syncing`. -/
  | syncing
  /-- The local time as `%02d:%02d` and, below it, the local date; the date is held
  as in `tm`. -/
  | timeAndDate (tm_hour tm_min tm_date : Int)
deriving DecidableEq, Repr

/-- The C function `displayTime`: the state after the call and what the display
shows (`none` when the clock read fails and nothing is drawn). -/
def displayTime (clk : Option Int) (d : Device) : Device × Option Screen :=
  match clk with
  | none => ({ d with terminationRequired := true }, none)
  | some currentTime =>
    let local0 := localtime d.tzOffset currentTime
    if currentTime < INVALID_DATE_TIME then (d, some Screen.syncing)
    else (d, some (Screen.timeAndDate local0.tm_hour local0.tm_min local0.tm_date))

/-! ## Specification-side definitions and sample states -/

/-- Spec wording of the same-day target of `computeNextTrigger`: the local calendar
date of `now` with `hour:minute:00` substituted, minus the lead. -/
def naiveTarget (d : Device) (now : Int) : Int :=
  (now + d.tzOffset) / 86400 * 86400 + (d.alarmTime.hour : Int) * 3600
    + (d.alarmTime.minute : Int) * 60 - d.tzOffset - (d.alarmTime.offsetSeconds : Int)

/-- A device in mode `Normal` with the given alarm setting, all buttons released,
the buzzer off and a zone `tzOffset` seconds east of UTC. -/
def deviceWith (hour minute offsetSeconds : Nat) (active : Bool) (tzOffset : Int) : Device :=
  { currentState := runningState.Normal
    alarmTime :=
      { hour := hour, minute := minute, offsetSeconds := offsetSeconds
        currentAlarmTime := 0, active := active }
    timezone := { c0 := '+', c1 := '0', c2 := '0' }
    buttonAState := GPIO_Value_Type.GPIO_Value_High
    buttonBState := GPIO_Value_Type.GPIO_Value_High
    buttonCState := GPIO_Value_Type.GPIO_Value_High
    buttonSetState := GPIO_Value_Type.GPIO_Value_High
    soundAlarmStarted := 0
    snoozeTime := 0
    terminationRequired := false
    buzzer := GPIO_Value_Type.GPIO_Value_Low
    tzOffset := tzOffset
    storage :=
      { timezone := { c0 := '+', c1 := '0', c2 := '0' }
        activeHour := 0, minute := 0, offsetSeconds := 0 } }

/-- The device `deviceWith hour minute offsetSeconds true 0` put in mode `mode`, with
a ringing episode begun at `epoch`. -/
def deviceIn (mode : runningState) (hour minute offsetSeconds : Nat) (epoch : Int) : Device :=
  { deviceWith hour minute offsetSeconds true 0 with
    currentState := mode
    soundAlarmStarted := epoch }

/-- An environment in which every call succeeds: the button polled reads `level`
and both clock reads return `now`. -/
def envAt (level : GPIO_Value_Type) (now : Int) : Env :=
  { gpio := some level
    clock := some now
    alarmClock := some now
    storageOk := true
    setenvOk := true
    tzOffset := 0 }

/-- Spec wording, section 4.2: the rows of the transition table whose input is a
button edge, with `Clock`, `ReviewAlarm`, `MenuRoot`, `EditTimezone`, `EditHour`,
`EditMinute`, `Ringing`, `Snoozed` read as `Normal`, `DisplayAlarm`, `SetSettings`,
`SetTimeZone`, `SetAlarmHour`, `SetAlarmMinute`, `SoundAlarm`, `Snooze`, Button-1,
Button-2, Button-3 as buttons A, B, C, a press as a change to low and a release as
a change to high. -/
def specTableRow : runningState → buttonName → GPIO_Value_Type → Bool
  | runningState.Normal, buttonName.ButtonA, GPIO_Value_Type.GPIO_Value_Low => true
  | runningState.DisplayAlarm, buttonName.ButtonA, GPIO_Value_Type.GPIO_Value_High => true
  | runningState.DisplayAlarm, buttonName.ButtonC, GPIO_Value_Type.GPIO_Value_Low => true
  | runningState.Normal, buttonName.ButtonSet, GPIO_Value_Type.GPIO_Value_Low => true
  | runningState.SetSettings, buttonName.ButtonA, GPIO_Value_Type.GPIO_Value_Low => true
  | runningState.SetSettings, buttonName.ButtonC, GPIO_Value_Type.GPIO_Value_Low => true
  | runningState.SetAlarmHour, buttonName.ButtonA, GPIO_Value_Type.GPIO_Value_Low => true
  | runningState.SetAlarmHour, buttonName.ButtonB, GPIO_Value_Type.GPIO_Value_Low => true
  | runningState.SetAlarmHour, buttonName.ButtonSet, GPIO_Value_Type.GPIO_Value_High => true
  | runningState.SetAlarmMinute, buttonName.ButtonA, GPIO_Value_Type.GPIO_Value_Low => true
  | runningState.SetAlarmMinute, buttonName.ButtonB, GPIO_Value_Type.GPIO_Value_Low => true
  | runningState.SetAlarmMinute, buttonName.ButtonSet, GPIO_Value_Type.GPIO_Value_High => true
  | runningState.SetTimeZone, buttonName.ButtonA, GPIO_Value_Type.GPIO_Value_Low => true
  | runningState.SetTimeZone, buttonName.ButtonB, GPIO_Value_Type.GPIO_Value_Low => true
  | runningState.SetTimeZone, buttonName.ButtonC, GPIO_Value_Type.GPIO_Value_Low => true
  | runningState.SetTimeZone, buttonName.ButtonSet, GPIO_Value_Type.GPIO_Value_High => true
  | runningState.SoundAlarm, buttonName.ButtonA, GPIO_Value_Type.GPIO_Value_Low => true
  | runningState.SoundAlarm, buttonName.ButtonSet, GPIO_Value_Type.GPIO_Value_Low => true
  | _, _, _ => false

/-- The (mode, button) pairs for which a handler calls `processAlarmButtonPress`,
on either edge: button A in `SoundAlarm` and `Snooze`, button Set in `SoundAlarm`. -/
def callsAlarmButtonPress (mode : runningState) (b : buttonName) : Bool :=
  (b = buttonName.ButtonA && (mode = runningState.SoundAlarm || mode = runningState.Snooze))
    || (b = buttonName.ButtonSet && mode = runningState.SoundAlarm)

/-- The early `return` of `processButtonSet`: a release of Set sampled in mode
`SetTimeZone` while `setenv` fails. -/
def takesEarlyReturn (b : buttonName) (env : Env) (d : Device) (level : GPIO_Value_Type) :
    Bool :=
  b = buttonName.ButtonSet && d.currentState = runningState.SetTimeZone
    && level = GPIO_Value_Type.GPIO_Value_High && !env.setenvOk

/-! ## Consistency of the calendar and of the time zone text -/

/-- The calendar model is consistent: `mktime` undoes `localtime`. -/
theorem mktime_localtime (tzOffset t : Int) :
    mktime tzOffset (localtime tzOffset t) = t := by
  simp only [mktime, localtime]
  omega

/-- The format `%02d` prints every value in `-9..99` as exactly two characters. -/
theorem sprintf02d_length (n : Int) (hlo : -9 ≤ n) (hhi : n ≤ 99) :
    (sprintf02d n).length = 2 := by
  interval_cases n <;> rfl

/-- The value of a decimal digit character. -/
theorem digit_value_bounds (c : Char) (h : c.isDigit = true) :
    0 ≤ (c.toNat : Int) - 48 ∧ (c.toNat : Int) - 48 ≤ 9 := by
  simp only [Char.isDigit, Bool.and_eq_true, decide_eq_true_eq] at h
  have h1 : 48 ≤ c.toNat := h.1
  have h2 : c.toNat ≤ 57 := h.2
  omega

/-- The two-character hour string parses to a value in `-9..99`. -/
theorem atoi_hourString_bounds (tz : TimeZone) :
    -9 ≤ atoi (hourString tz) ∧ atoi (hourString tz) ≤ 99 := by
  by_cases d1 : tz.c1.isDigit = true
  · have h1 := digit_value_bounds tz.c1 d1
    by_cases d2 : tz.c2.isDigit = true
    · have h2 := digit_value_bounds tz.c2 d2
      simp only [hourString, atoi, atoiDigits, d1, d2, if_true]
      split_ifs <;> omega
    · simp only [hourString, atoi, atoiDigits, d1, d2, if_true]
      split_ifs <;> first | omega | contradiction
  · by_cases d2 : tz.c2.isDigit = true
    · have h2 := digit_value_bounds tz.c2 d2
      simp only [hourString, atoi, atoiDigits, d1, d2, if_true]
      split_ifs <;> first | omega | contradiction
    · simp only [hourString, atoi, atoiDigits, d1, d2]
      split_ifs <;> first | omega | contradiction

/-- The zone hour that `processButtonB` formats prints as two characters. -/
theorem sprintf02d_length_decrement (tz : TimeZone) :
    (sprintf02d
      (if atoi (hourString tz) - 1 < 0 then 23 else atoi (hourString tz) - 1)).length = 2 := by
  have h := atoi_hourString_bounds tz
  apply sprintf02d_length <;> split_ifs <;> omega

/-- The zone hour that `processButtonC` formats prints as two characters. -/
theorem sprintf02d_length_increment (tz : TimeZone) :
    (sprintf02d (Int.tmod (atoi (hourString tz) + 1) 24)).length = 2 := by
  have h := atoi_hourString_bounds tz
  have h1 : -9 ≤ Int.tmod (atoi (hourString tz) + 1) 24 := by
    rcases Int.le_total 0 (atoi (hourString tz) + 1) with hp | hn
    · have := Int.tmod_nonneg 24 hp
      omega
    · have hcases : atoi (hourString tz) + 1 = -8 ∨ atoi (hourString tz) + 1 = -7
          ∨ atoi (hourString tz) + 1 = -6 ∨ atoi (hourString tz) + 1 = -5
          ∨ atoi (hourString tz) + 1 = -4 ∨ atoi (hourString tz) + 1 = -3
          ∨ atoi (hourString tz) + 1 = -2 ∨ atoi (hourString tz) + 1 = -1
          ∨ atoi (hourString tz) + 1 = 0 := by omega
      rcases hcases with h | h | h | h | h | h | h | h | h <;> rw [h] <;> decide
  have h2 : Int.tmod (atoi (hourString tz) + 1) 24 ≤ 99 := by
    have := Int.tmod_lt_of_pos (atoi (hourString tz) + 1) (by norm_num : (0 : Int) < 24)
    omega
  exact sprintf02d_length _ h1 h2

/-! ## Scheduling: `setCurrentAlarm` -/

/-- What `setCurrentAlarm` stores, in terms of the same-day target. -/
theorem setCurrentAlarm_stored (d : Device) (now : Int) :
    (setCurrentAlarm (some now) d).alarmTime.currentAlarmTime =
      if naiveTarget d now < now then naiveTarget d now + 86400 else naiveTarget d now := by
  have h : mktime d.tzOffset
      { localtime d.tzOffset now with
        tm_hour := (d.alarmTime.hour : Int), tm_min := (d.alarmTime.minute : Int), tm_sec := 0 }
      - (d.alarmTime.offsetSeconds : Int) = naiveTarget d now := by
    simp only [mktime, localtime, naiveTarget]
    ring
  simp only [setCurrentAlarm, SECONDS_IN_DAY, h]

/-- The lead time is not touched by `setCurrentAlarm`. -/
theorem setCurrentAlarm_offsetSeconds (clk : Option Int) (d : Device) :
    (setCurrentAlarm clk d).alarmTime.offsetSeconds = d.alarmTime.offsetSeconds := by
  cases clk <;> rfl

/-- C1 (refuted as stated): two inputs with hour in 0..23, minute in 0..59 and a
16-bit lead where the stored trigger is not strictly after `now`. At 07:30:00 with
the alarm set to 07:30 and lead 0 the trigger equals `now`; at 23:59:50 with the
alarm set to 00:00 and lead 25 the trigger is 23:59:35 of the same day, before
`now`. -/
theorem setCurrentAlarm_trigger_not_strictly_future :
    (setCurrentAlarm (some 1641627000) (deviceWith 7 30 0 true 0)).alarmTime.currentAlarmTime
      = 1641627000 ∧
    (setCurrentAlarm (some 1641686390) (deviceWith 0 0 25 true 0)).alarmTime.currentAlarmTime
      = 1641686375 ∧
    (1641686375 : Int) < 1641686390 := by
  decide

/-- C1 (amended): whenever the lead does not exceed `hour * 3600 + minute * 60` (the
same-day target does not fall before local midnight), in particular for lead 0 and
every hour in 0..23 and minute in 0..59, the trigger that `setCurrentAlarm` stores
is not before `now`, and it equals `now` only when the same-day target is `now`
itself. -/
theorem setCurrentAlarm_trigger_not_before_now (d : Device) (now : Int)
    (hlead : d.alarmTime.offsetSeconds
      ≤ d.alarmTime.hour * 3600 + d.alarmTime.minute * 60) :
    now ≤ (setCurrentAlarm (some now) d).alarmTime.currentAlarmTime ∧
    ((setCurrentAlarm (some now) d).alarmTime.currentAlarmTime = now ↔
      naiveTarget d now = now) := by
  rw [setCurrentAlarm_stored]
  have h1 := Int.emod_add_ediv (now + d.tzOffset) 86400
  have h2 := Int.emod_nonneg (now + d.tzOffset) (by norm_num : (86400 : Int) ≠ 0)
  have h3 := Int.emod_lt_of_pos (now + d.tzOffset) (by norm_num : (0 : Int) < 86400)
  have hn : naiveTarget d now
      = (now + d.tzOffset) / 86400 * 86400 + (d.alarmTime.hour : Int) * 3600
        + (d.alarmTime.minute : Int) * 60 - d.tzOffset
        - (d.alarmTime.offsetSeconds : Int) := rfl
  split_ifs with hlt
  · constructor
    · omega
    · constructor <;> intro h <;> omega
  · constructor
    · omega
    · exact Iff.rfl

/-- Witness for C1 (amended): alarm 07:30 with a lead of 90 s, one hour east of UTC,
asked at 06:28:31 UTC (07:28:31 local, one second after the same-day target). -/
theorem setCurrentAlarm_trigger_not_before_now_witness :
    (deviceWith 7 30 90 true 3600).alarmTime.offsetSeconds
      ≤ (deviceWith 7 30 90 true 3600).alarmTime.hour * 3600
        + (deviceWith 7 30 90 true 3600).alarmTime.minute * 60 ∧
    (1641623311 : Int)
      ≤ (setCurrentAlarm (some 1641623311) (deviceWith 7 30 90 true 3600)).alarmTime.currentAlarmTime :=
  ⟨by decide,
    (setCurrentAlarm_trigger_not_before_now (deviceWith 7 30 90 true 3600) 1641623311
      (by decide)).1⟩

/-- C2 (refuted as stated): at 07:30:00 with the alarm set to 07:30 and lead 0 the
same-day target is not after `now`, yet `setCurrentAlarm` stores the target itself
and not the target plus one day. -/
theorem setCurrentAlarm_keeps_target_at_now :
    naiveTarget (deviceWith 7 30 0 true 0) 1641627000 ≤ 1641627000 ∧
    (setCurrentAlarm (some 1641627000) (deviceWith 7 30 0 true 0)).alarmTime.currentAlarmTime
      = naiveTarget (deviceWith 7 30 0 true 0) 1641627000 ∧
    (setCurrentAlarm (some 1641627000) (deviceWith 7 30 0 true 0)).alarmTime.currentAlarmTime
      ≠ naiveTarget (deviceWith 7 30 0 true 0) 1641627000 + 86400 := by
  decide

/-- C2 (amended): `setCurrentAlarm` stores the same-day target plus 86400 when the
target is strictly before `now`, and the target itself otherwise (also when the
target equals `now`). With hour 7, minute 30, lead 0, on any day and in any zone:
asked at 07:29:59 it stores 07:30:00 of the same day, asked at 07:30:01 it stores
07:30:00 of the next day. -/
theorem setCurrentAlarm_target_or_next_day (d : Device) (now day tz : Int) (active : Bool) :
    (setCurrentAlarm (some now) d).alarmTime.currentAlarmTime
      = (if naiveTarget d now < now then naiveTarget d now + 86400 else naiveTarget d now) ∧
    (setCurrentAlarm (some (day * 86400 + 26999 - tz))
        (deviceWith 7 30 0 active tz)).alarmTime.currentAlarmTime
      = day * 86400 + 27000 - tz ∧
    (setCurrentAlarm (some (day * 86400 + 27001 - tz))
        (deviceWith 7 30 0 active tz)).alarmTime.currentAlarmTime
      = (day + 1) * 86400 + 27000 - tz := by
  refine ⟨setCurrentAlarm_stored d now, ?_, ?_⟩
  · rw [setCurrentAlarm_stored]
    have hn : naiveTarget (deviceWith 7 30 0 active tz) (day * 86400 + 26999 - tz)
        = (day * 86400 + 26999 - tz + tz) / 86400 * 86400 + 7 * 3600 + 30 * 60 - tz - 0 := rfl
    rw [hn]
    have hq : (day * 86400 + 26999 - tz + tz) / 86400 = day := by omega
    rw [hq]
    split_ifs <;> omega
  · rw [setCurrentAlarm_stored]
    have hn : naiveTarget (deviceWith 7 30 0 active tz) (day * 86400 + 27001 - tz)
        = (day * 86400 + 27001 - tz + tz) / 86400 * 86400 + 7 * 3600 + 30 * 60 - tz - 0 := rfl
    rw [hn]
    have hq : (day * 86400 + 27001 - tz + tz) / 86400 = day := by omega
    rw [hq]
    split_ifs <;> omega

/-! ## Lead-time learning: `endSoundAlarm` -/

/-- Without overflow the stored lead is the plain integer average. -/
theorem newOffsetSeconds_eq (elapsed oldLead : Nat) (he : elapsed < 65536)
    (ho : oldLead < 65536) :
    newOffsetSeconds elapsed oldLead = (elapsed + oldLead) / 2 := by
  unfold newOffsetSeconds toUInt16
  omega

/-- The stored lead fits in 16 bits. -/
theorem newOffsetSeconds_lt (elapsed oldLead : Nat) :
    newOffsetSeconds elapsed oldLead < 65536 := by
  unfold newOffsetSeconds toUInt16
  omega

/-- The elapsed time fits in 16 bits. -/
theorem elapsedTime_lt (a b : Int) : elapsedTime a b < 65536 := by
  unfold elapsedTime toUInt16
  omega

/-- C3 (refuted as stated): a ringing episode acknowledged 65536 s after its start
with prior lead 0. The claim gives a new lead of (65536 + 0) / 2 = 32768; the code
stores 0, because the elapsed time is held in 16 bits. -/
theorem endSoundAlarm_elapsed_truncated :
    (1641627000 : Int) ≤ 1641692536 ∧
    (endSoundAlarm (envAt GPIO_Value_Type.GPIO_Value_Low 1641692536)
        (deviceIn runningState.SoundAlarm 7 30 0 1641627000)).alarmTime.offsetSeconds = 0 ∧
    ((1641692536 - 1641627000 : Int).toNat + 0) / 2 = 32768 := by
  decide

/-- C3 (amended): when the clock read succeeds and the prior lead is a 16-bit value,
`endSoundAlarm` sets `offsetSeconds` to `(elapsed + oldLead) / 2` (integer division)
where `elapsed` is `now - epoch` reduced modulo 2^16; for `epoch ≤ now < epoch +
65536` that is `now - epoch` itself, and an acknowledgment 40 s after the epoch with
prior lead 20 s gives 30 s. -/
theorem endSoundAlarm_offsetSeconds_average (env : Env) (d : Device) (now : Int)
    (hclk : env.clock = some now) (hlead : d.alarmTime.offsetSeconds < 65536) :
    (endSoundAlarm env d).alarmTime.offsetSeconds
      = (((now - d.soundAlarmStarted) % 65536).toNat + d.alarmTime.offsetSeconds) / 2 ∧
    (d.soundAlarmStarted ≤ now → now - d.soundAlarmStarted < 65536 →
      (endSoundAlarm env d).alarmTime.offsetSeconds
        = ((now - d.soundAlarmStarted).toNat + d.alarmTime.offsetSeconds) / 2) ∧
    (now = d.soundAlarmStarted + 40 → d.alarmTime.offsetSeconds = 20 →
      (endSoundAlarm env d).alarmTime.offsetSeconds = 30) := by
  have key : (endSoundAlarm env d).alarmTime.offsetSeconds
      = (((now - d.soundAlarmStarted) % 65536).toNat + d.alarmTime.offsetSeconds) / 2 := by
    simp only [endSoundAlarm, hclk, setCurrentAlarm_offsetSeconds]
    rw [newOffsetSeconds_eq _ _ (elapsedTime_lt _ _) hlead]
    rfl
  refine ⟨key, ?_, ?_⟩
  · intro h1 h2
    rw [key, Int.emod_eq_of_lt (by omega) h2]
  · intro h1 h2
    rw [key, h1, h2]
    have h40 : (d.soundAlarmStarted + 40 - d.soundAlarmStarted) % 65536 = 40 := by omega
    rw [h40]
    rfl

/-- Witness for C3 (amended): ringing since 07:30:00, acknowledged at 07:30:40 with
a prior lead of 20 s. -/
theorem endSoundAlarm_offsetSeconds_average_witness :
    (envAt GPIO_Value_Type.GPIO_Value_Low 1641627040).clock = some 1641627040 ∧
    (deviceIn runningState.SoundAlarm 7 30 20 1641627000).alarmTime.offsetSeconds < 65536 ∧
    (endSoundAlarm (envAt GPIO_Value_Type.GPIO_Value_Low 1641627040)
        (deviceIn runningState.SoundAlarm 7 30 20 1641627000)).alarmTime.offsetSeconds = 30 :=
  ⟨rfl, by decide,
    (endSoundAlarm_offsetSeconds_average (envAt GPIO_Value_Type.GPIO_Value_Low 1641627040)
      (deviceIn runningState.SoundAlarm 7 30 20 1641627000) 1641627040 rfl
      (by decide)).2.2 (by decide) rfl⟩

/-- Halving a distance rounded up, twice over: the arithmetic behind the iterated
bound. -/
theorem ceil_half_pow (a k : Nat) :
    ((a + 2 ^ k - 1) / 2 ^ k + 1) / 2 = (a + 2 ^ (k + 1) - 1) / 2 ^ (k + 1) := by
  have hpos : 0 < 2 ^ k := by positivity
  rw [← Nat.add_div_right _ hpos, Nat.div_div_eq_div_mul, pow_succ]
  congr 1
  omega

/-- One learning step at most halves the distance to `elapsed`, rounding up. -/
theorem newOffsetSeconds_step (elapsed oldLead : Nat) (he : elapsed < 65536)
    (ho : oldLead < 65536) :
    Int.natAbs ((newOffsetSeconds elapsed oldLead : Int) - elapsed)
      ≤ (Int.natAbs ((oldLead : Int) - elapsed) + 1) / 2 := by
  rw [newOffsetSeconds_eq _ _ he ho]
  omega

/-- After `k` learning steps with the same `elapsed` the lead is still a 16-bit value
and its distance to `elapsed` is at most the initial distance over `2 ^ k`,
rounded up. -/
theorem newOffsetSeconds_iterate (elapsed oldLead : Nat) (he : elapsed < 65536)
    (ho : oldLead < 65536) (k : Nat) :
    (newOffsetSeconds elapsed)^[k] oldLead < 65536 ∧
    Int.natAbs ((((newOffsetSeconds elapsed)^[k] oldLead : Nat) : Int) - elapsed)
      ≤ (Int.natAbs ((oldLead : Int) - elapsed) + 2 ^ k - 1) / 2 ^ k := by
  induction k with
  | zero => simp [ho]
  | succ k ih =>
    rw [Function.iterate_succ_apply']
    refine ⟨newOffsetSeconds_lt _ _, ?_⟩
    have h1 := newOffsetSeconds_step elapsed _ he ih.1
    rw [← ceil_half_pow]
    exact le_trans h1 (Nat.div_le_div_right (Nat.add_le_add_right ih.2 1))

/-- C4 (refuted as stated): with elapsed 1 and prior lead 0 the new lead is 0 again,
at distance 1 from elapsed, which is more than half the prior distance 1; the lead
stays at 0 under repetition and never reaches elapsed. -/
theorem newOffsetSeconds_distance_not_halved :
    newOffsetSeconds 1 0 = 0 ∧
    ¬ (Int.natAbs ((newOffsetSeconds 1 0 : Int) - 1) ≤ Int.natAbs ((0 : Int) - 1) / 2) := by
  decide

/-- C4 (amended): for 16-bit `elapsed` and `oldLead`, one application of the update
brings the lead to within half the prior distance to `elapsed`, rounded up:
`|newLead - elapsed| ≤ (|oldLead - elapsed| + 1) / 2`; the bound without rounding,
`|oldLead - elapsed| / 2`, holds when `oldLead ≥ elapsed`; and after `k`
acknowledgments with the same `elapsed` the distance is at most
`|oldLead - elapsed| / 2 ^ k` rounded up, so the lead comes within one second of
`elapsed`. -/
theorem newOffsetSeconds_distance_halves_rounded_up (elapsed oldLead k : Nat)
    (he : elapsed < 65536) (ho : oldLead < 65536) :
    Int.natAbs ((newOffsetSeconds elapsed oldLead : Int) - elapsed)
      ≤ (Int.natAbs ((oldLead : Int) - elapsed) + 1) / 2 ∧
    (elapsed ≤ oldLead →
      Int.natAbs ((newOffsetSeconds elapsed oldLead : Int) - elapsed)
        ≤ Int.natAbs ((oldLead : Int) - elapsed) / 2) ∧
    Int.natAbs ((((newOffsetSeconds elapsed)^[k] oldLead : Nat) : Int) - elapsed)
      ≤ (Int.natAbs ((oldLead : Int) - elapsed) + 2 ^ k - 1) / 2 ^ k := by
  refine ⟨newOffsetSeconds_step elapsed oldLead he ho, ?_,
    (newOffsetSeconds_iterate elapsed oldLead he ho k).2⟩
  intro hle
  rw [newOffsetSeconds_eq _ _ he ho]
  omega

/-- Witness for C4 (amended): elapsed 40 s, prior lead 21 s, three acknowledgments
(leads 30, 35, 37). -/
theorem newOffsetSeconds_distance_halves_rounded_up_witness :
    (40 : Nat) < 65536 ∧ (21 : Nat) < 65536 ∧
    Int.natAbs ((newOffsetSeconds 40 21 : Int) - (40 : Nat))
      ≤ (Int.natAbs (((21 : Nat) : Int) - (40 : Nat)) + 1) / 2 ∧
    Int.natAbs ((((newOffsetSeconds 40)^[3] 21 : Nat) : Int) - (40 : Nat))
      ≤ (Int.natAbs (((21 : Nat) : Int) - (40 : Nat)) + 2 ^ 3 - 1) / 2 ^ 3 :=
  ⟨by decide, by decide,
    (newOffsetSeconds_distance_halves_rounded_up 40 21 3 (by decide) (by decide)).1,
    (newOffsetSeconds_distance_halves_rounded_up 40 21 3 (by decide) (by decide)).2.2⟩

/-! ## Button handlers -/

/-- C5 (refuted as stated): (Snoozed, Button-1 press) is not a row of the section
4.2 table, yet `processButtonA` leaves mode `Snooze` for `Normal` and relearns the
lead (20 s becomes 30 s after 40 s of ringing). -/
theorem processButtonA_snooze_not_noop :
    specTableRow runningState.Snooze buttonName.ButtonA GPIO_Value_Type.GPIO_Value_Low = false ∧
    (deviceIn runningState.Snooze 7 30 20 1641627000).currentState = runningState.Snooze ∧
    (processButton buttonName.ButtonA (envAt GPIO_Value_Type.GPIO_Value_Low 1641627040)
        (deviceIn runningState.Snooze 7 30 20 1641627000)).currentState = runningState.Normal ∧
    (deviceIn runningState.Snooze 7 30 20 1641627000).alarmTime.offsetSeconds = 20 ∧
    (processButton buttonName.ButtonA (envAt GPIO_Value_Type.GPIO_Value_Low 1641627040)
        (deviceIn runningState.Snooze 7 30 20 1641627000)).alarmTime.offsetSeconds = 30 := by
  decide

/-- C5 (amended): a (mode, button, sampled level) triple that is neither a row of the
section 4.2 table nor handed to `processAlarmButtonPress` (button A in `SoundAlarm`
or `Snooze`, button Set in `SoundAlarm`) leaves the mode, the alarm record (hour,
minute, offsetSeconds, active, currentAlarmTime) and the time zone unchanged; and a
press of button A in `Snooze` ends the alarm as in `SoundAlarm`: the mode becomes
`Normal`. -/
theorem processButton_unlisted_noop (b : buttonName) (env : Env) (d : Device)
    (level : GPIO_Value_Type) (hgpio : env.gpio = some level) :
    (specTableRow d.currentState b level = false →
      callsAlarmButtonPress d.currentState b = false →
      (processButton b env d).currentState = d.currentState ∧
      (processButton b env d).alarmTime = d.alarmTime ∧
      (processButton b env d).timezone = d.timezone) ∧
    (b = buttonName.ButtonA → d.currentState = runningState.Snooze →
      level = GPIO_Value_Type.GPIO_Value_Low → d.buttonAState ≠ level →
      (processButton b env d).currentState = runningState.Normal) := by
  constructor
  · intro hrow hcall
    obtain ⟨mode, at0, tz, sa, sb, sc, ss, e, sn, tr, bz, off, st⟩ := d
    cases b <;> cases mode <;> cases level <;>
      simp_all [processButton, processButtonA, processButtonB, processButtonC,
        processButtonSet, processButtonSetEdge, specTableRow, callsAlarmButtonPress] <;>
      split_ifs <;> simp
  · intro hb hmode hlow hne
    subst hb
    have hne2 : level ≠ d.buttonAState := fun h => hne h.symm
    cases hclk : env.clock with
    | none =>
      simp [processButton, processButtonA, hgpio, hmode, hne2, processAlarmButtonPress,
        endSoundAlarm, hclk]
    | some t =>
      cases hclk2 : env.alarmClock <;>
        simp [processButton, processButtonA, hgpio, hmode, hne2, processAlarmButtonPress,
          endSoundAlarm, hclk, hclk2, setCurrentAlarm]

/-- Witness for C5 (amended): a release of button B sampled in mode `Normal`, and a
press of button A sampled in mode `Snooze`. -/
theorem processButton_unlisted_noop_witness :
    (envAt GPIO_Value_Type.GPIO_Value_Low 1641627040).gpio
      = some GPIO_Value_Type.GPIO_Value_Low ∧
    specTableRow (deviceWith 7 30 0 true 0).currentState buttonName.ButtonB
      GPIO_Value_Type.GPIO_Value_Low = false ∧
    callsAlarmButtonPress (deviceWith 7 30 0 true 0).currentState buttonName.ButtonB = false ∧
    (processButton buttonName.ButtonB (envAt GPIO_Value_Type.GPIO_Value_Low 1641627040)
        (deviceWith 7 30 0 true 0)).alarmTime = (deviceWith 7 30 0 true 0).alarmTime ∧
    (processButton buttonName.ButtonA (envAt GPIO_Value_Type.GPIO_Value_Low 1641627040)
        (deviceIn runningState.Snooze 7 30 20 1641627000)).currentState = runningState.Normal :=
  ⟨rfl, by decide, by decide,
    ((processButton_unlisted_noop buttonName.ButtonB
      (envAt GPIO_Value_Type.GPIO_Value_Low 1641627040) (deviceWith 7 30 0 true 0)
      GPIO_Value_Type.GPIO_Value_Low rfl).1 (by decide) (by decide)).2.1,
    (processButton_unlisted_noop buttonName.ButtonA
      (envAt GPIO_Value_Type.GPIO_Value_Low 1641627040)
      (deviceIn runningState.Snooze 7 30 20 1641627000)
      GPIO_Value_Type.GPIO_Value_Low rfl).2 rfl rfl rfl (by decide)⟩

/-- A handler that samples the stored level returns the state as it was. -/
theorem processButton_same_level (b : buttonName) (env : Env) (d : Device)
    (hgpio : env.gpio = some (buttonState b d)) : processButton b env d = d := by
  cases b <;>
    simp [processButton, processButtonA, processButtonB, processButtonC, processButtonSet,
      buttonState, hgpio] at *

/-- A handler that samples a new level and does not take the early return stores
that level. -/
theorem processButton_stores_level (b : buttonName) (env : Env) (d : Device)
    (level : GPIO_Value_Type) (hgpio : env.gpio = some level)
    (hne : level ≠ buttonState b d) (hret : takesEarlyReturn b env d level = false) :
    buttonState b (processButton b env d) = level := by
  cases b
  · simp only [buttonState] at hne
    simp [processButton, processButtonA, buttonState, hgpio, hne]
  · simp only [buttonState] at hne
    simp [processButton, processButtonB, buttonState, hgpio, hne]
  · simp only [buttonState] at hne
    simp [processButton, processButtonC, buttonState, hgpio, hne]
  · simp only [buttonState] at hne
    simp only [processButton, processButtonSet, hgpio, ne_eq, hne, not_false_eq_true, if_true]
    obtain ⟨mode, at0, tz, sa, sb, sc, ss, e, sn, tr, bz, off, st⟩ := d
    cases mode <;> cases level <;> cases hs : env.setenvOk <;>
      simp_all [processButtonSetEdge, takesEarlyReturn, setTimeZone, buttonState]

/-- C6 (refuted as stated): in mode `SetTimeZone` with Set stored as low, sampling
high while `setenv` fails makes `processButtonSet` return before it updates the
stored level: the level differs from the stored one, yet the stored level stays
low (and termination is requested). -/
theorem processButtonSet_early_return_keeps_level :
    ({ envAt GPIO_Value_Type.GPIO_Value_High 1641627000 with setenvOk := false } : Env).gpio
      = some GPIO_Value_Type.GPIO_Value_High ∧
    buttonState buttonName.ButtonSet
      { deviceIn runningState.SetTimeZone 7 30 0 0 with
        buttonSetState := GPIO_Value_Type.GPIO_Value_Low }
      = GPIO_Value_Type.GPIO_Value_Low ∧
    buttonState buttonName.ButtonSet
      (processButton buttonName.ButtonSet
        { envAt GPIO_Value_Type.GPIO_Value_High 1641627000 with setenvOk := false }
        { deviceIn runningState.SetTimeZone 7 30 0 0 with
          buttonSetState := GPIO_Value_Type.GPIO_Value_Low })
      = GPIO_Value_Type.GPIO_Value_Low ∧
    (processButton buttonName.ButtonSet
        { envAt GPIO_Value_Type.GPIO_Value_High 1641627000 with setenvOk := false }
        { deviceIn runningState.SetTimeZone 7 30 0 0 with
          buttonSetState := GPIO_Value_Type.GPIO_Value_Low }).terminationRequired = true := by
  decide

/-- C6 (amended): for each of the four buttons and every mode, a handler that
samples the stored level changes nothing at all; a handler that samples a different
level stores the sampled level, so that sampling the same level on the next tick
changes nothing further, except on the early return of `processButtonSet` (release
of Set in `SetTimeZone` with `setTimeZone` failing). -/
theorem processButton_edge_detection (b : buttonName) (env next : Env) (d : Device)
    (level : GPIO_Value_Type) (hgpio : env.gpio = some level)
    (hnext : next.gpio = some level) :
    (level = buttonState b d → processButton b env d = d) ∧
    (level ≠ buttonState b d → takesEarlyReturn b env d level = false →
      buttonState b (processButton b env d) = level ∧
      processButton b next (processButton b env d) = processButton b env d) := by
  constructor
  · intro h
    exact processButton_same_level b env d (by rw [hgpio, h])
  · intro hne hret
    have hst := processButton_stores_level b env d level hgpio hne hret
    exact ⟨hst, processButton_same_level b next _ (by rw [hnext, hst])⟩

/-- Witness for C6 (amended): button A pressed in mode `Normal`, then held. -/
theorem processButton_edge_detection_witness :
    (envAt GPIO_Value_Type.GPIO_Value_Low 1641627000).gpio
      = some GPIO_Value_Type.GPIO_Value_Low ∧
    GPIO_Value_Type.GPIO_Value_Low ≠ buttonState buttonName.ButtonA (deviceWith 7 30 0 true 0) ∧
    buttonState buttonName.ButtonA
      (processButton buttonName.ButtonA (envAt GPIO_Value_Type.GPIO_Value_Low 1641627000)
        (deviceWith 7 30 0 true 0)) = GPIO_Value_Type.GPIO_Value_Low ∧
    processButton buttonName.ButtonA (envAt GPIO_Value_Type.GPIO_Value_Low 1641627001)
      (processButton buttonName.ButtonA (envAt GPIO_Value_Type.GPIO_Value_Low 1641627000)
        (deviceWith 7 30 0 true 0))
      = processButton buttonName.ButtonA (envAt GPIO_Value_Type.GPIO_Value_Low 1641627000)
        (deviceWith 7 30 0 true 0) :=
  ⟨rfl, by decide,
    (processButton_edge_detection buttonName.ButtonA
      (envAt GPIO_Value_Type.GPIO_Value_Low 1641627000)
      (envAt GPIO_Value_Type.GPIO_Value_Low 1641627001) (deviceWith 7 30 0 true 0)
      GPIO_Value_Type.GPIO_Value_Low rfl rfl).2 (by decide) (by decide)⟩

/-- C8 (evaluation at the failing input): in mode `SetAlarmMinute` with minute 0 and
hour 7, a press of button A stores minute 255, not 59; hour and mode stay as they
were. -/
theorem processButtonA_minute_zero_wraps_to_255 :
    (deviceIn runningState.SetAlarmMinute 7 0 0 0).alarmTime.minute = 0 ∧
    (processButtonA (envAt GPIO_Value_Type.GPIO_Value_Low 1641627000)
        (deviceIn runningState.SetAlarmMinute 7 0 0 0)).alarmTime.minute = 255 ∧
    (processButtonA (envAt GPIO_Value_Type.GPIO_Value_Low 1641627000)
        (deviceIn runningState.SetAlarmMinute 7 0 0 0)).alarmTime.hour = 7 ∧
    (processButtonA (envAt GPIO_Value_Type.GPIO_Value_Low 1641627000)
        (deviceIn runningState.SetAlarmMinute 7 0 0 0)).currentState
      = runningState.SetAlarmMinute := by
  decide

/-! ## Settings storage -/

/-- C7: for every hour in 0..23 and every active flag, the byte `saveSettings`
encodes decodes, as `loadSettings` does, to the same hour and flag, also through the
two functions themselves; and the byte 133 decodes to hour 5, active. -/
theorem activeHourByte_roundtrip (d : Device) (hour : Nat) (active : Bool)
    (hh : hour ≤ 23) :
    loadHour (activeHourByte hour active) = hour ∧
    loadActive (activeHourByte hour active) = active ∧
    (d.alarmTime.hour = hour → d.alarmTime.active = active →
      (loadSettings true (saveSettings true d)).alarmTime.hour = hour ∧
      (loadSettings true (saveSettings true d)).alarmTime.active = active) ∧
    loadHour 133 = 5 ∧ loadActive 133 = true := by
  have h1 : loadHour (activeHourByte hour active) = hour := by
    interval_cases hour <;> cases active <;> decide
  have h2 : loadActive (activeHourByte hour active) = active := by
    interval_cases hour <;> cases active <;> decide
  refine ⟨h1, h2, ?_, by decide, by decide⟩
  intro hd ha
  simp only [loadSettings, saveSettings, if_true, hd, ha]
  exact ⟨h1, h2⟩

/-- Witness for C7: hour 5 with the alarm active is stored as the byte 133. -/
theorem activeHourByte_roundtrip_witness :
    (5 : Nat) ≤ 23 ∧ activeHourByte 5 true = 133 ∧
    loadHour (activeHourByte 5 true) = 5 ∧ loadActive (activeHourByte 5 true) = true ∧
    (loadSettings true (saveSettings true (deviceWith 5 30 0 true 0))).alarmTime.hour = 5 :=
  ⟨by decide, by decide,
    (activeHourByte_roundtrip (deviceWith 5 30 0 true 0) 5 true (by decide)).1,
    (activeHourByte_roundtrip (deviceWith 5 30 0 true 0) 5 true (by decide)).2.1,
    ((activeHourByte_roundtrip (deviceWith 5 30 0 true 0) 5 true (by decide)).2.2.1
      rfl rfl).1⟩

/-! ## Scheduler check: `checkAlarm` -/

/-- C9: `checkAlarm` run in mode `Normal` at time `now`. When `currentAlarmTime` has
passed, the ringing epoch becomes `now`, `currentAlarmTime` advances by exactly
86400 and the mode becomes `SoundAlarm` if and only if the alarm is active (it stays
`Normal` otherwise); when it has not passed, the whole state is unchanged; hour,
minute, offsetSeconds and active are unchanged in both cases. -/
theorem checkAlarm_fires_when_passed (d : Device) (now : Int)
    (hmode : d.currentState = runningState.Normal) :
    (d.alarmTime.currentAlarmTime < now →
      (checkAlarm (some now) d).soundAlarmStarted = now ∧
      (checkAlarm (some now) d).alarmTime.currentAlarmTime
        = d.alarmTime.currentAlarmTime + 86400 ∧
      ((checkAlarm (some now) d).currentState = runningState.SoundAlarm
        ↔ d.alarmTime.active = true) ∧
      (d.alarmTime.active = false →
        (checkAlarm (some now) d).currentState = runningState.Normal)) ∧
    (¬ d.alarmTime.currentAlarmTime < now → checkAlarm (some now) d = d) ∧
    (checkAlarm (some now) d).alarmTime.hour = d.alarmTime.hour ∧
    (checkAlarm (some now) d).alarmTime.minute = d.alarmTime.minute ∧
    (checkAlarm (some now) d).alarmTime.offsetSeconds = d.alarmTime.offsetSeconds ∧
    (checkAlarm (some now) d).alarmTime.active = d.alarmTime.active ∧
    (checkAlarm (some now) d).timezone = d.timezone := by
  refine ⟨?_, ?_, ?_⟩
  · intro hlt
    cases hact : d.alarmTime.active <;>
      simp [checkAlarm, hlt, hact, hmode, SECONDS_IN_DAY]
  · intro hge
    simp [checkAlarm, hge]
  · by_cases hlt : d.alarmTime.currentAlarmTime < now <;> simp [checkAlarm, hlt]

/-- Witness for C9: the alarm 07:30 scheduled at 07:13:20 and checked at 07:30:01
with the alarm active. -/
theorem checkAlarm_fires_when_passed_witness :
    (setCurrentAlarm (some 1641626000) (deviceWith 7 30 0 true 0)).currentState
      = runningState.Normal ∧
    (setCurrentAlarm (some 1641626000) (deviceWith 7 30 0 true 0)).alarmTime.currentAlarmTime
      < 1641627001 ∧
    (checkAlarm (some 1641627001)
        (setCurrentAlarm (some 1641626000) (deviceWith 7 30 0 true 0))).soundAlarmStarted
      = 1641627001 ∧
    (checkAlarm (some 1641627001)
        (setCurrentAlarm (some 1641626000) (deviceWith 7 30 0 true 0))).currentState
      = runningState.SoundAlarm :=
  ⟨by decide, by decide,
    ((checkAlarm_fires_when_passed
      (setCurrentAlarm (some 1641626000) (deviceWith 7 30 0 true 0)) 1641627001
      (by decide)).1 (by decide)).1,
    ((checkAlarm_fires_when_passed
      (setCurrentAlarm (some 1641626000) (deviceWith 7 30 0 true 0)) 1641627001
      (by decide)).1 (by decide)).2.2.1.mpr (by decide)⟩

/-! ## Buzzer tick: `buzzerTimerEventHandler` -/

/-- C10: a buzzer tick whose timer event and level read succeed, with `clk` the
result of the clock read. In mode `SoundAlarm` the output level is inverted; in
every other mode it ends low; in mode `Snooze` with the clock reading `now` the
mode becomes `SoundAlarm` exactly when `now` is past `snoozeTime` and stays `Snooze`
otherwise; in every mode other than `Snooze` the mode is unchanged; the alarm
record and the time zone are unchanged in every mode. -/
theorem buzzerTimerEventHandler_tick (d : Device) (clk : Option Int) (now : Int) :
    (d.currentState = runningState.SoundAlarm →
      (d.buzzer = GPIO_Value_Type.GPIO_Value_High →
        (buzzerTimerEventHandler true true clk d).buzzer = GPIO_Value_Type.GPIO_Value_Low) ∧
      (d.buzzer = GPIO_Value_Type.GPIO_Value_Low →
        (buzzerTimerEventHandler true true clk d).buzzer = GPIO_Value_Type.GPIO_Value_High)) ∧
    (d.currentState ≠ runningState.SoundAlarm →
      (buzzerTimerEventHandler true true clk d).buzzer = GPIO_Value_Type.GPIO_Value_Low) ∧
    (d.currentState = runningState.Snooze →
      ((buzzerTimerEventHandler true true (some now) d).currentState = runningState.SoundAlarm
        ↔ d.snoozeTime < now) ∧
      (¬ d.snoozeTime < now →
        (buzzerTimerEventHandler true true (some now) d).currentState = runningState.Snooze)) ∧
    (d.currentState ≠ runningState.Snooze →
      (buzzerTimerEventHandler true true clk d).currentState = d.currentState) ∧
    (buzzerTimerEventHandler true true clk d).alarmTime = d.alarmTime ∧
    (buzzerTimerEventHandler true true clk d).timezone = d.timezone := by
  obtain ⟨mode, at0, tz, sa, sb, sc, ss, e, sn, tr, bz, off, st⟩ := d
  refine ⟨?_, ?_, ?_, ?_, ?_, ?_⟩
  · intro hm
    cases bz <;> simp_all [buzzerTimerEventHandler]
  · intro hm
    cases mode <;> cases bz <;> cases clk <;> simp_all [buzzerTimerEventHandler] <;>
      split_ifs <;> rfl
  · intro hm
    simp only at hm
    subst hm
    cases bz <;> by_cases hlt : sn < now <;> simp [buzzerTimerEventHandler, hlt]
  · intro hm
    cases mode <;> cases bz <;> simp_all [buzzerTimerEventHandler]
  · cases mode <;> cases bz <;> cases clk <;> simp [buzzerTimerEventHandler] <;>
      split_ifs <;> rfl
  · cases mode <;> cases bz <;> cases clk <;> simp [buzzerTimerEventHandler] <;>
      split_ifs <;> rfl

/-- Witness for C10: the alarm rings since 07:30:00 and Set is pressed at 07:30:05,
so the snooze deadline is 07:30:25; the buzzer tick at 07:30:26 finds the buzzer
high, switches it off and re-enters `SoundAlarm`. -/
theorem buzzerTimerEventHandler_tick_witness :
    (processButtonSet (envAt GPIO_Value_Type.GPIO_Value_Low 1641627005)
        { deviceIn runningState.SoundAlarm 7 30 0 1641627000 with
          buzzer := GPIO_Value_Type.GPIO_Value_High }).currentState = runningState.Snooze ∧
    (buzzerTimerEventHandler true true (some 1641627026)
        (processButtonSet (envAt GPIO_Value_Type.GPIO_Value_Low 1641627005)
          { deviceIn runningState.SoundAlarm 7 30 0 1641627000 with
            buzzer := GPIO_Value_Type.GPIO_Value_High })).buzzer
      = GPIO_Value_Type.GPIO_Value_Low ∧
    (buzzerTimerEventHandler true true (some 1641627026)
        (processButtonSet (envAt GPIO_Value_Type.GPIO_Value_Low 1641627005)
          { deviceIn runningState.SoundAlarm 7 30 0 1641627000 with
            buzzer := GPIO_Value_Type.GPIO_Value_High })).currentState
      = runningState.SoundAlarm :=
  ⟨by decide,
    (buzzerTimerEventHandler_tick
      (processButtonSet (envAt GPIO_Value_Type.GPIO_Value_Low 1641627005)
        { deviceIn runningState.SoundAlarm 7 30 0 1641627000 with
          buzzer := GPIO_Value_Type.GPIO_Value_High })
      (some 1641627026) 1641627026).2.1 (by decide),
    ((buzzerTimerEventHandler_tick
      (processButtonSet (envAt GPIO_Value_Type.GPIO_Value_Low 1641627005)
        { deviceIn runningState.SoundAlarm 7 30 0 1641627000 with
          buzzer := GPIO_Value_Type.GPIO_Value_High })
      (some 1641627026) 1641627026).2.2.1 (by decide)).1.mpr (by decide)⟩

/-! ## Clock readiness and display: `displayTime` -/

/-- Before the sentinel the clock is not ready and `displayTime` shows `Syncing`. -/
theorem displayTime_syncing_before_sentinel (d : Device) (now : Int)
    (h : now < INVALID_DATE_TIME) :
    isTimeValid now = false ∧ (displayTime (some now) d).2 = some Screen.syncing := by
  constructor
  · simp only [isTimeValid, decide_eq_false_iff_not]
    omega
  · simp [displayTime, h]

/-- After the sentinel the clock is ready and `displayTime` shows time and date. -/
theorem displayTime_clock_after_sentinel (d : Device) (now : Int)
    (h : INVALID_DATE_TIME < now) :
    isTimeValid now = true ∧ (displayTime (some now) d).2 ≠ some Screen.syncing := by
  constructor
  · simp only [isTimeValid, decide_eq_true_eq]
    omega
  · have hnot : ¬ now < INVALID_DATE_TIME := by omega
    simp [displayTime, hnot]

/-- C11 (evaluation at the failing input): at `now = 1262304000`, the sentinel
itself, the readiness test is false and a retry loop polling that clock value uses
up all its retries, yet `displayTime` shows the time 00:00 and the date instead of
`Syncing`. -/
theorem displayTime_at_sentinel_not_syncing :
    isTimeValid 1262304000 = false ∧
    waitForSync (fun _ => some 1262304000) NTP_SYNC_RETRIES 0 = SyncOutcome.exhausted ∧
    (displayTime (some 1262304000) (deviceWith 7 30 0 true 0)).2
      = some (Screen.timeAndDate 0 0 14610) ∧
    (displayTime (some 1262304000) (deviceWith 7 30 0 true 0)).2 ≠ some Screen.syncing := by
  decide

/-! ## Hour range -/

/-- The hour is not touched by `setCurrentAlarm`. -/
theorem setCurrentAlarm_hour (clk : Option Int) (d : Device) :
    (setCurrentAlarm clk d).alarmTime.hour = d.alarmTime.hour := by
  cases clk <;> rfl

/-- The hour is not touched by `processAlarmButtonPress`. -/
theorem processAlarmButtonPress_hour (button : buttonName) (env : Env) (d : Device) :
    (processAlarmButtonPress button env d).alarmTime.hour = d.alarmTime.hour := by
  obtain ⟨gp, ck, ack, sok, eok, eoff⟩ := env
  cases button <;> cases ck <;>
    simp [processAlarmButtonPress, endSoundAlarm, setCurrentAlarm_hour]

/-- The alarm record is not touched by `saveSettings`. -/
theorem saveSettings_alarmTime (storageOk : Bool) (d : Device) :
    (saveSettings storageOk d).alarmTime = d.alarmTime := by
  cases storageOk <;> rfl

/-- The clamp of the hour decrement yields an hour of the day. -/
theorem toUInt8_pred_clamped (hour : Nat) :
    (if toUInt8 ((hour : Int) - 1) > 23 then 23 else toUInt8 ((hour : Int) - 1)) ≤ 23 := by
  split_ifs with h
  · exact le_refl 23
  · omega

/-- Every button handler keeps the hour within 0..23. -/
theorem processButton_hour (b : buttonName) (env : Env) (d : Device)
    (hh : d.alarmTime.hour ≤ 23) :
    (processButton b env d).alarmTime.hour ≤ 23 := by
  obtain ⟨mode, ⟨hr, mi, os, cat, act⟩, tz, sa, sb, sc, ss, e, sn, tr, bz, off, st⟩ := d
  obtain ⟨gp, ck, ack, sok, eok, eoff⟩ := env
  simp only at hh
  have hclamp := toUInt8_pred_clamped hr
  have hmod : toUInt8 (((hr + 1) % 24 : Nat) : Int) ≤ 23 := by
    unfold toUInt8
    omega
  cases gp with
  | none => cases b <;> exact hh
  | some level =>
    cases b <;> cases mode <;> cases level <;>
      simp only [processButton, processButtonA, processButtonB, processButtonC,
        processButtonSet, processButtonSetEdge, setTimeZone] <;>
      split_ifs <;>
      (try simp only [processAlarmButtonPress_hour, saveSettings_alarmTime,
        setCurrentAlarm_hour]) <;>
      first
      | exact hh
      | exact hclamp
      | exact hmod
      | omega

/-- C12: from a state whose hour is in 0..23, every button handler, in every mode
and for every sampled level (or failed read), yields an hour in 0..23. In
`SetAlarmHour` a press of button A on hour 0 gives 23, and in `SetAlarmMinute`
button A never changes the hour, although its bound check reads and writes it. -/
theorem processButton_hour_in_range (b : buttonName) (env : Env) (d : Device)
    (hh : d.alarmTime.hour ≤ 23) :
    (processButton b env d).alarmTime.hour ≤ 23 ∧
    (d.currentState = runningState.SetAlarmHour →
      env.gpio = some GPIO_Value_Type.GPIO_Value_Low →
      d.buttonAState = GPIO_Value_Type.GPIO_Value_High → d.alarmTime.hour = 0 →
      (processButtonA env d).alarmTime.hour = 23) ∧
    (d.currentState = runningState.SetAlarmMinute →
      (processButtonA env d).alarmTime.hour = d.alarmTime.hour) := by
  refine ⟨processButton_hour b env d hh, ?_, ?_⟩
  · intro hmode hgpio hst h0
    simp [processButtonA, hmode, hgpio, hst, h0, toUInt8]
  · intro hmode
    have h59 : ¬ d.alarmTime.hour > 59 := by omega
    cases hg : env.gpio with
    | none => simp [processButtonA, hg]
    | some level =>
      by_cases hne : level = d.buttonAState
      · simp [processButtonA, hg, hne]
      · simp only [processButtonA, hg, hmode, ne_eq, hne, not_false_eq_true, if_true]
        split_ifs <;> simp [h59]

/-- Witness for C12: hour 0 in mode `SetAlarmHour`, button A pressed. -/
theorem processButton_hour_in_range_witness :
    (deviceIn runningState.SetAlarmHour 0 30 0 0).alarmTime.hour ≤ 23 ∧
    (processButton buttonName.ButtonA (envAt GPIO_Value_Type.GPIO_Value_Low 1641627000)
        (deviceIn runningState.SetAlarmHour 0 30 0 0)).alarmTime.hour ≤ 23 ∧
    (processButtonA (envAt GPIO_Value_Type.GPIO_Value_Low 1641627000)
        (deviceIn runningState.SetAlarmHour 0 30 0 0)).alarmTime.hour = 23 :=
  ⟨by decide,
    (processButton_hour_in_range buttonName.ButtonA
      (envAt GPIO_Value_Type.GPIO_Value_Low 1641627000)
      (deviceIn runningState.SetAlarmHour 0 30 0 0) (by decide)).1,
    (processButton_hour_in_range buttonName.ButtonA
      (envAt GPIO_Value_Type.GPIO_Value_Low 1641627000)
      (deviceIn runningState.SetAlarmHour 0 30 0 0) (by decide)).2.1 rfl rfl rfl rfl⟩

/-! ## Bounds on the learned lead -/

/-- C13: when the clock read succeeds and the prior lead is a 16-bit value, with
`e = (now - epoch) mod 2^16` the new lead that `endSoundAlarm` stores lies between
the smaller and the larger of `e` and the prior lead, so it is at most 65535, and
it is the untruncated average `(e + oldLead) / 2`: the 16-bit store loses no
bits. -/
theorem endSoundAlarm_offsetSeconds_between (env : Env) (d : Device) (now : Int)
    (hclk : env.clock = some now) (hlead : d.alarmTime.offsetSeconds < 65536) :
    min ((now - d.soundAlarmStarted) % 65536).toNat d.alarmTime.offsetSeconds
      ≤ (endSoundAlarm env d).alarmTime.offsetSeconds ∧
    (endSoundAlarm env d).alarmTime.offsetSeconds
      ≤ max ((now - d.soundAlarmStarted) % 65536).toNat d.alarmTime.offsetSeconds ∧
    (endSoundAlarm env d).alarmTime.offsetSeconds ≤ 65535 ∧
    (endSoundAlarm env d).alarmTime.offsetSeconds
      = (((now - d.soundAlarmStarted) % 65536).toNat + d.alarmTime.offsetSeconds) / 2 := by
  have key : (endSoundAlarm env d).alarmTime.offsetSeconds
      = (((now - d.soundAlarmStarted) % 65536).toNat + d.alarmTime.offsetSeconds) / 2 := by
    simp only [endSoundAlarm, hclk, setCurrentAlarm_offsetSeconds]
    rw [newOffsetSeconds_eq _ _ (elapsedTime_lt _ _) hlead]
    rfl
  have he : ((now - d.soundAlarmStarted) % 65536).toNat < 65536 := by omega
  rw [key]
  refine ⟨?_, ?_, ?_, rfl⟩
  · rcases Nat.le_total ((now - d.soundAlarmStarted) % 65536).toNat
        d.alarmTime.offsetSeconds with h | h
    · rw [Nat.min_eq_left h]
      omega
    · rw [Nat.min_eq_right h]
      omega
  · rcases Nat.le_total ((now - d.soundAlarmStarted) % 65536).toNat
        d.alarmTime.offsetSeconds with h | h
    · rw [Nat.max_eq_right h]
      omega
    · rw [Nat.max_eq_left h]
      omega
  · omega

/-- Witness for C13: ringing since 07:30:00, acknowledged 70000 s later (elapsed
4464 after truncation) with a prior lead of 600 s: the new lead is 2532. -/
theorem endSoundAlarm_offsetSeconds_between_witness :
    (envAt GPIO_Value_Type.GPIO_Value_Low 1641697000).clock = some 1641697000 ∧
    (deviceIn runningState.SoundAlarm 7 30 600 1641627000).alarmTime.offsetSeconds < 65536 ∧
    (endSoundAlarm (envAt GPIO_Value_Type.GPIO_Value_Low 1641697000)
        (deviceIn runningState.SoundAlarm 7 30 600 1641627000)).alarmTime.offsetSeconds = 2532 ∧
    (endSoundAlarm (envAt GPIO_Value_Type.GPIO_Value_Low 1641697000)
        (deviceIn runningState.SoundAlarm 7 30 600 1641627000)).alarmTime.offsetSeconds ≤ 65535 :=
  ⟨rfl, by decide, by decide,
    (endSoundAlarm_offsetSeconds_between (envAt GPIO_Value_Type.GPIO_Value_Low 1641697000)
      (deviceIn runningState.SoundAlarm 7 30 600 1641627000) 1641697000 rfl
      (by decide)).2.2.1⟩

/-! ## Scheduling with no lead -/

/-- C14: with lead 0, hour in 0..23 and minute in 0..59, the trigger `t` that
`setCurrentAlarm` stores satisfies `now ≤ t ≤ now + 86400`, and in the local
fixed-offset calendar `t` reads `hour:minute:00`. -/
theorem setCurrentAlarm_zero_lead_within_a_day (d : Device) (now : Int)
    (hh : d.alarmTime.hour ≤ 23) (hm : d.alarmTime.minute ≤ 59)
    (hl : d.alarmTime.offsetSeconds = 0) :
    now ≤ (setCurrentAlarm (some now) d).alarmTime.currentAlarmTime ∧
    (setCurrentAlarm (some now) d).alarmTime.currentAlarmTime ≤ now + 86400 ∧
    (localtime d.tzOffset (setCurrentAlarm (some now) d).alarmTime.currentAlarmTime).tm_hour
      = d.alarmTime.hour ∧
    (localtime d.tzOffset (setCurrentAlarm (some now) d).alarmTime.currentAlarmTime).tm_min
      = d.alarmTime.minute ∧
    (localtime d.tzOffset (setCurrentAlarm (some now) d).alarmTime.currentAlarmTime).tm_sec
      = 0 := by
  rw [setCurrentAlarm_stored]
  have h1 := Int.emod_add_ediv (now + d.tzOffset) 86400
  have h2 := Int.emod_nonneg (now + d.tzOffset) (by norm_num : (86400 : Int) ≠ 0)
  have h3 := Int.emod_lt_of_pos (now + d.tzOffset) (by norm_num : (0 : Int) < 86400)
  have hn : naiveTarget d now
      = (now + d.tzOffset) / 86400 * 86400 + (d.alarmTime.hour : Int) * 3600
        + (d.alarmTime.minute : Int) * 60 - d.tzOffset
        - (d.alarmTime.offsetSeconds : Int) := rfl
  simp only [localtime]
  split_ifs with hlt
  · refine ⟨?_, ?_, ?_, ?_, ?_⟩ <;> omega
  · refine ⟨?_, ?_, ?_, ?_, ?_⟩ <;> omega

/-- Witness for C14: alarm 07:30 with no lead, two hours east of UTC, asked at
21:00:00 UTC (23:00 local): the trigger is 05:30:00 UTC of the next day. -/
theorem setCurrentAlarm_zero_lead_within_a_day_witness :
    (deviceWith 7 30 0 true 7200).alarmTime.hour ≤ 23 ∧
    (deviceWith 7 30 0 true 7200).alarmTime.minute ≤ 59 ∧
    (deviceWith 7 30 0 true 7200).alarmTime.offsetSeconds = 0 ∧
    (setCurrentAlarm (some 1641675600) (deviceWith 7 30 0 true 7200)).alarmTime.currentAlarmTime
      = 1641706200 ∧
    (setCurrentAlarm (some 1641675600) (deviceWith 7 30 0 true 7200)).alarmTime.currentAlarmTime
      ≤ 1641675600 + 86400 ∧
    (localtime (deviceWith 7 30 0 true 7200).tzOffset
      (setCurrentAlarm (some 1641675600)
        (deviceWith 7 30 0 true 7200)).alarmTime.currentAlarmTime).tm_hour
      = (deviceWith 7 30 0 true 7200).alarmTime.hour :=
  ⟨by decide, by decide, rfl, by decide,
    (setCurrentAlarm_zero_lead_within_a_day (deviceWith 7 30 0 true 7200) 1641675600
      (by decide) (by decide) rfl).2.1,
    (setCurrentAlarm_zero_lead_within_a_day (deviceWith 7 30 0 true 7200) 1641675600
      (by decide) (by decide) rfl).2.2.1⟩

end AlarmClock
